import Mathlib

/-!
Verification development for the dataset-building module of the tcg_fsM
repository (source file: src/data/utils_dataset.py).

The Python module assembles a tabular dataset for tropical-cyclone-genesis
prediction.  Its pieces, embedded below as executable Lean definitions:

* crop_field            - crops a gridded lat/lon field to a bounding box,
                          handling the antimeridian (180 degrees) wraparound;
* check_consecutive_repeats - the advisory quality check flagging positions
                          where a column value equals its immediate predecessor;
* basinBounds           - the basin -> bounding-box dispatch chain;
* buildCalendar         - the pandas date_range month-start calendar;
* loadIndexes           - the climate-index table projection onto the calendar;
* loadClusters          - the cluster-average CSV loading and calendar filter;
* buildTarget           - reads per-year gridded event-count files, concatenates
                          along time, crops/masks per basin and sums spatially;
* build_dataset / build_dataset_noTS - the two top-level entry points.

External effects are made explicit: file contents are supplied by an `Env`
record, the STL decomposition (an external library call) is a function
parameter, and each function returns alongside its result the list of file
names it read, in order (the I/O trace).  Fallible steps return `Except Err`.
Grid coordinates and years are integers; data values are rationals.
-/

/-- A lat/lon grid coordinate.  Longitudes in the source convention lie in
[-180, 180]; the antimeridian branch of `crop_field` re-bases them to
[0, 360). -/
structure GridPoint where
  lon : Int
  lat : Int
  deriving DecidableEq, Repr

/-- The antimeridian test of crop_field (utils_dataset.py line 28):
`(lon1 <= 180 and lon2 >= -180 and lon1 > lon2) or (lon1 == -180) or (lon2 == 180)`. -/
def crossesAntimeridian (lon1 lon2 : Int) : Bool :=
  (lon1 ≤ 180 && lon2 ≥ -180 && lon1 > lon2) || lon1 == -180 || lon2 == 180

/-- Longitude re-basing to the [0, 360) convention (line 29):
`(longitude + 360) % 360`. -/
def convLon (l : Int) : Int := (l + 360) % 360

/-- Insert a valued grid point into a list sorted by longitude. -/
def insertByLon {α : Type} (p : GridPoint × α) :
    List (GridPoint × α) → List (GridPoint × α)
  | [] => [p]
  | q :: qs => if p.1.lon ≤ q.1.lon then p :: q :: qs else q :: insertByLon p qs

/-- Sorting of the field by longitude (`ds.sortby(ds.longitude)`, line 30),
realised as an insertion sort so that every definition stays executable by
structural recursion.  Only the multiset of points matters to selection. -/
def sortByLon {α : Type} : List (GridPoint × α) → List (GridPoint × α)
  | [] => []
  | p :: ps => insertByLon p (sortByLon ps)

/-- The box-selection predicate of
`ds.sel(longitude=slice(lon1, lon2), latitude=slice(lat2, lat1))` (line 35):
on an ascending longitude axis the slice keeps lon1 <= lon <= lon2, and on the
field's native North-to-South latitude axis slice(lat2, lat1) keeps
lat1 <= lat <= lat2. -/
def inBox (lon1 lon2 lat1 lat2 : Int) (p : GridPoint) : Bool :=
  lon1 ≤ p.lon && p.lon ≤ lon2 && lat1 ≤ p.lat && p.lat ≤ lat2

/-- Embedding of crop_field (utils_dataset.py lines 7-35).  A field is the
list of its valued grid points.  If the requested box crosses or touches the
antimeridian, longitudes are re-based to [0, 360), the field is re-sorted by
longitude, and negative bounds are shifted by +360; then the closed
lon/lat box is selected. -/
def crop_field {α : Type} (var : List (GridPoint × α)) (lon1 lon2 lat1 lat2 : Int) :
    List (GridPoint × α) :=
  if crossesAntimeridian lon1 lon2 then
    let ds := sortByLon (var.map fun p => (⟨convLon p.1.lon, p.1.lat⟩, p.2))
    let lon2 := if lon2 < 0 then lon2 + 360 else lon2
    let lon1 := if lon1 < 0 then lon1 + 360 else lon1
    ds.filter fun p => inBox lon1 lon2 lat1 lat2 p.1
  else
    var.filter fun p => inBox lon1 lon2 lat1 lat2 p.1

/-- Embedding of check_consecutive_repeats (lines 37-41): the positions it
reports, namely every index whose value equals that of its immediate
predecessor (`df.shift(1) == df`; position 0 is never flagged because the
shifted frame holds a missing value there). -/
def check_consecutive_repeats (xs : List ℚ) : List Nat :=
  (List.range xs.length).filter fun i =>
    decide (1 ≤ i) && decide (xs.get? i = xs.get? (i - 1))

/-- The basin dispatch chain shared by build_dataset (lines 46-61) and
build_dataset_noTS (lines 137-152): basin identifier to
(min_lon, max_lon, min_lat, max_lat); an unrecognised basin has no bounds
(the source raises ValueError there). -/
def basinBounds (basin : String) : Option (Int × Int × Int × Int) :=
  if basin = "NWP" then some (100, 180, 0, 40)
  else if basin = "NEP" then some (-180, -75, 0, 40)
  else if basin = "NA" then some (-100, 0, 0, 40)
  else if basin = "NI" then some (45, 100, 0, 40)
  else if basin = "SP" then some (135, -70, -40, 0)
  else if basin = "SI" then some (35, 135, -40, 0)
  else if basin = "GLB" then some (-181, 181, -40, 40)
  else none

/-- Embedding of
`pd.date_range(start=f'{first_year}-01-01', end=f'{last_year}-12-01', freq='MS')`
(line 64): the ordered list of (year, month) month starts from January of
first_year through December of last_year; empty when the end precedes the
start (pandas raises nothing in that case). -/
def buildCalendar (first_year last_year : Int) : List (Int × Int) :=
  (List.range (12 * (last_year - first_year + 1)).toNat).map
    fun k => (first_year + ((k / 12 : Nat) : Int), ((k % 12 : Nat) : Int) + 1)

/-- Strict chronological order on (year, month) timestamps. -/
def ymLt (a b : Int × Int) : Prop :=
  a.1 < b.1 ∨ (a.1 = b.1 ∧ a.2 < b.2)

/-- The failure modes of the pipeline.  `unknownBasin` embeds the
`ValueError('Basin not recognized')` of lines 61/152; `missingDataPoint` the
IndexError raised by `.values[0]` on an absent (year, month) cell (line 73);
`missingYearFile` a missing per-year target file (line 106); `emptyConcat`
the error xarray raises when asked to concatenate zero objects (line 106 with
an empty year range); `lengthMismatch` the pandas error when the summed
target series does not fit the calendar index (line 116). -/
inductive Err where
  | unknownBasin
  | missingDataPoint
  | missingYearFile
  | emptyConcat
  | lengthMismatch
  deriving DecidableEq, Repr

/-- The result contract of the external STL decomposition
(`STL(series).fit()`): three component series. Additivity
(trend + seasonal + resid = input) and length preservation are properties of
the external library, taken as hypotheses where needed. -/
structure StlResult where
  trend : List ℚ
  seasonal : List ℚ
  resid : List ℚ
  deriving DecidableEq, Repr

/-- The external STL decomposition, abstracted as a function parameter. -/
abbrev StlFun := List ℚ → StlResult

/-- A calendar-keyed column of scalar values: (year, month) paired with
the value, in row order. -/
abbrev Series := List ((Int × Int) × ℚ)

/-- The merged feature table: named columns of keyed values (the pandas
DataFrame built by lines 75-92). -/
structure FeatureTable where
  cols : List (String × Series)
  deriving DecidableEq, Repr

/-- A gridded field with a time dimension: one list of valued grid points
per time slice (the xarray dataset holding the `tcg` variable). -/
abbrev TField := List (List (GridPoint × Int))

/-- External storage: what each named file contains.  `indexData` maps an
index file name to its whitespace table (first column year, then monthly
values); `clusterData` maps a cluster CSV name to its date-indexed rows;
`targetFiles` maps a per-year gridded file name to its contents (`none`
embeds a missing file); `maskData` maps a mask file name to the
characteristic function of its value-1 cells. -/
structure Env where
  indexData : String → List (Int × List ℚ)
  clusterData : String → Series
  targetFiles : String → Option TField
  maskData : String → GridPoint → Bool

/-- The per-cell lookup of line 73:
`data[(data[0] == year)][month].values[0]` - the first table row whose year
column matches, projected on the month-th column; absent when no row matches
(there `.values[0]` raises). -/
def lookupIndexCell (tbl : List (Int × List ℚ)) (y m : Int) : Option ℚ :=
  match tbl.find? fun r => r.1 == y with
  | none => none
  | some r => r.2.get? (m - 1).toNat

/-- The inner loop of lines 69-73: one value per calendar row, failing on the
first absent (year, month) cell. -/
def fillIndexColumn (tbl : List (Int × List ℚ)) :
    List (Int × Int) → Except Err (List ℚ)
  | [] => .ok []
  | ym :: rest =>
    match lookupIndexCell tbl ym.1 ym.2 with
    | none => .error .missingDataPoint
    | some v => (fillIndexColumn tbl rest).map fun vs => v :: vs

/-- The index file name of line 67: `os.path.join(indexes_path, ci + '.txt')`. -/
def indexFileName (indexes_path climate_index : String) : String :=
  indexes_path ++ "/" ++ climate_index ++ ".txt"

/-- The index-loading step of lines 63-73: for each climate index, read its
table and project it onto the calendar.  Returns the keyed columns and the
list of files read, in order. -/
def loadIndexes (env : Env) (indexes_path : String) :
    List String → List (Int × Int) →
    Except Err (List (String × Series)) × List String
  | [], _ => (.ok [], [])
  | ci :: rest, cal =>
    let fname := indexFileName indexes_path ci
    match fillIndexColumn (env.indexData fname) cal with
    | .error e => (.error e, [fname])
    | .ok vals =>
      match loadIndexes env indexes_path rest cal with
      | (.error e, tr) => (.error e, fname :: tr)
      | (.ok cols, tr) => (.ok ((ci, cal.zip vals) :: cols), fname :: tr)

/-- The index-loading step of build_dataset_noTS (lines 154-167): as
`loadIndexes`, but each column is replaced by the residual component of its
STL decomposition (`df_residual_indeces[ci] = decomp_index.resid`). -/
def loadIndexesResid (env : Env) (stl : StlFun) (indexes_path : String) :
    List String → List (Int × Int) →
    Except Err (List (String × Series)) × List String
  | [], _ => (.ok [], [])
  | ci :: rest, cal =>
    let fname := indexFileName indexes_path ci
    match fillIndexColumn (env.indexData fname) cal with
    | .error e => (.error e, [fname])
    | .ok vals =>
      match loadIndexesResid env stl indexes_path rest cal with
      | (.error e, tr) => (.error e, fname :: tr)
      | (.ok cols, tr) => (.ok ((ci, cal.zip (stl vals).resid) :: cols), fname :: tr)

/-- The cluster file name of line 77: `averages_{var}.csv` under cluster_path. -/
def clusterFileName (cluster_path v : String) : String :=
  cluster_path ++ "/averages_" ++ v ++ ".csv"

/-- The cluster-loading loop of lines 75-85: each variable's CSV is read and
filtered to the rows whose date lies in the calendar
(`index.isin(date_range)`); columns are joined side by side. -/
def loadClusters (env : Env) (cluster_path : String) (cvs : List String)
    (cal : List (Int × Int)) : List (String × Series) × List String :=
  (cvs.map fun v =>
      (v, (env.clusterData (clusterFileName cluster_path v)).filter
        fun r => decide (r.1 ∈ cal)),
   cvs.map fun v => clusterFileName cluster_path v)

/-- The merge of lines 87-92: cluster columns first, then index columns
(`pd.concat([dataset_cluster, df_indeces], axis=1)`), then the optional
month-of-year column. -/
def mkDataset (clusterCols indexCols : List (String × Series))
    (cal : List (Int × Int)) (month_col : Bool) : FeatureTable :=
  let base := clusterCols ++ indexCols
  ⟨if month_col then base ++ [("month", cal.map fun ym => (ym, (ym.2 : ℚ)))]
   else base⟩

/-- Cropping of the full time-indexed dataset: crop_field acts on the shared
lat/lon coordinates, hence on every time slice alike. -/
def crop_dataset (f : TField) (box : Int × Int × Int × Int) : TField :=
  f.map fun s => crop_field s box.1 box.2.1 box.2.2.1 box.2.2.2

/-- `tcg_ds.where(mask == 1)` followed by the NaN-skipping spatial sum
(lines 110/116) keeps exactly the cells whose mask value is 1. -/
def applyMask (f : TField) (mask : GridPoint → Bool) : TField :=
  f.map fun s => s.filter fun pv => mask pv.1

/-- The mask file name of line 109: `{basin}_mask.nc`. -/
def maskFileName (basin : String) : String := basin ++ "_mask.nc"

/-- The basin dispatch of lines 107-114 (and identically 201-208): NEP and NA
are cropped and then masked; every other basin except GLB is cropped only;
GLB passes through unchanged. -/
def selectTargetField (env : Env) (basin : String) (box : Int × Int × Int × Int)
    (f : TField) : TField :=
  if basin = "NEP" || basin = "NA" then
    applyMask (crop_dataset f box) (env.maskData (maskFileName basin))
  else if basin != "GLB" then
    crop_dataset f box
  else
    f

/-- The mask file read performed by lines 109/203, present only for the
masked basins. -/
def maskTrace (basin : String) : List String :=
  if basin = "NEP" || basin = "NA" then [maskFileName basin] else []

/-- The per-year target file name of line 106: `{target_path}_{year}.nc`. -/
def targetFileName (target_path : String) (year : Int) : String :=
  target_path ++ "_" ++ toString year ++ ".nc"

/-- The file reads of the list comprehension in line 106, in year order; a
missing year aborts with the reads done so far. -/
def readYearFiles (env : Env) (target_path : String) :
    List Int → Except Err (List TField) × List String
  | [] => (.ok [], [])
  | y :: ys =>
    let fname := targetFileName target_path y
    match env.targetFiles fname with
    | none => (.error .missingYearFile, [fname])
    | some f =>
      match readYearFiles env target_path ys with
      | (.error e, tr) => (.error e, fname :: tr)
      | (.ok fs, tr) => (.ok (f :: fs), fname :: tr)

/-- The spatial sum of line 116:
`tcg_ds.tcg.sum(dim=['latitude', 'longitude'])`, one integer per time slice. -/
def sliceSums (f : TField) : List Int :=
  f.map fun s => (s.map fun pv => pv.2).sum

/-- The target-building step (lines 104-116): the year range
`np.arange(first_year, last_year+1)`, the per-year reads, the time
concatenation (which xarray refuses on an empty list), the basin crop/mask
dispatch, the spatial sum, and the assignment onto the calendar-indexed
frame (which pandas refuses on a length mismatch). -/
def buildTarget (env : Env) (target_path basin : String)
    (box : Int × Int × Int × Int) (first_year last_year : Int)
    (cal : List (Int × Int)) : Except Err (List Int) × List String :=
  let years := (List.range (last_year + 1 - first_year).toNat).map
    fun k => first_year + (k : Int)
  match readYearFiles env target_path years with
  | (.error e, tr) => (.error e, tr)
  | (.ok fields, tr) =>
    if fields.isEmpty then (.error .emptyConcat, tr)
    else
      let tcg_ds := selectTargetField env basin box fields.flatten
      let vals := sliceSums tcg_ds
      let tr := tr ++ maskTrace basin
      if vals.length = cal.length then (.ok vals, tr)
      else (.error .lengthMismatch, tr)

/-- The integer target series viewed as rationals (the STL call and the
subtraction of lines 120-121 operate on the numeric series). -/
def intToRatSeries (xs : List Int) : List ℚ := xs.map fun n : Int => (n : ℚ)

/-- The return shapes of build_dataset: a pair when neither flag is set, a
4-tuple (dataset, target, adjusted target, component) otherwise. -/
inductive Output where
  | raw (dataset : FeatureTable) (target : List Int)
  | extended (dataset : FeatureTable) (target : List Int)
      (adjusted : List ℚ) (component : List ℚ)
  deriving DecidableEq, Repr

/-- The flag-dispatch of lines 118-132: `if deseasonalize: ... elif detrend:
... else: ...`.  In the deseasonalize branch the adjusted target is the
target minus the seasonal component and the returned component is the
seasonal one; in the detrend branch likewise with the trend. -/
def finalize (stl : StlFun) (dataset : FeatureTable) (target : List Int)
    (deseasonalize detrend : Bool) : Output :=
  if deseasonalize then
    let d := stl (intToRatSeries target)
    .extended dataset target
      (List.zipWith (fun t s => t - s) (intToRatSeries target) d.seasonal)
      d.seasonal
  else if detrend then
    let d := stl (intToRatSeries target)
    .extended dataset target
      (List.zipWith (fun t s => t - s) (intToRatSeries target) d.trend)
      d.trend
  else
    .raw dataset target

/-- Embedding of build_dataset (lines 43-132).  Returns the result and the
I/O trace (file names read, in order).  The quality-audit loop of lines
94-102 only prints warnings (see `check_consecutive_repeats`); it neither
reads files nor alters any value, so it contributes nothing here. -/
def build_dataset (env : Env) (stl : StlFun) (basin : String)
    (cluster_variables index_variables : List String)
    (cluster_path indexes_path target_path : String)
    (first_year last_year : Int) (deseasonalize detrend : Bool)
    (month_col : Bool := true) : Except Err Output × List String :=
  match basinBounds basin with
  | none => (.error .unknownBasin, [])
  | some box =>
    let cal := buildCalendar first_year last_year
    match loadIndexes env indexes_path index_variables cal with
    | (.error e, tr) => (.error e, tr)
    | (.ok indexCols, tr1) =>
      let cl := loadClusters env cluster_path cluster_variables cal
      let dataset := mkDataset cl.1 indexCols cal month_col
      match buildTarget env target_path basin box first_year last_year cal with
      | (.error e, tr3) => (.error e, tr1 ++ cl.2 ++ tr3)
      | (.ok target, tr3) =>
        (.ok (finalize stl dataset target deseasonalize detrend),
         tr1 ++ cl.2 ++ tr3)

/-- Embedding of build_dataset_noTS (lines 134-218): index columns carry the
STL residuals, and the target is always fully decomposed, returning
(dataset, residual, trend, seasonal). -/
def build_dataset_noTS (env : Env) (stl : StlFun) (basin : String)
    (cluster_variables index_variables : List String)
    (cluster_path indexes_path target_path : String)
    (first_year last_year : Int) (month_col : Bool := true) :
    Except Err (FeatureTable × List ℚ × List ℚ × List ℚ) × List String :=
  match basinBounds basin with
  | none => (.error .unknownBasin, [])
  | some box =>
    let cal := buildCalendar first_year last_year
    match loadIndexesResid env stl indexes_path index_variables cal with
    | (.error e, tr) => (.error e, tr)
    | (.ok indexCols, tr1) =>
      let cl := loadClusters env cluster_path cluster_variables cal
      let dataset := mkDataset cl.1 indexCols cal month_col
      match buildTarget env target_path basin box first_year last_year cal with
      | (.error e, tr3) => (.error e, tr1 ++ cl.2 ++ tr3)
      | (.ok target, tr3) =>
        let d := stl (intToRatSeries target)
        (.ok (dataset, d.resid, d.trend, d.seasonal), tr1 ++ cl.2 ++ tr3)

/-- Whether a pipeline step succeeded. -/
def isOkResult {α : Type} : Except Err α → Bool
  | .ok _ => true
  | .error _ => false

instance exceptDecEq {ε α : Type} [DecidableEq ε] [DecidableEq α] :
    DecidableEq (Except ε α) := fun x y =>
  match x, y with
  | .ok a, .ok b =>
    if h : a = b then .isTrue (by rw [h]) else .isFalse (by simp [h])
  | .error e, .error f =>
    if h : e = f then .isTrue (by rw [h]) else .isFalse (by simp [h])
  | .ok _, .error _ => .isFalse (by simp)
  | .error _, .ok _ => .isFalse (by simp)

/-! Concrete instances used by witnesses and counterexamples: a small
full-globe grid, a simple STL stand-in, and an environment with one index
file, one cluster file and one target year. -/

/-- A small full-globe grid: longitudes every 30 degrees starting at -180,
latitudes from 60 down to -60, all carrying value 0. -/
def fullGlobeGrid : List (GridPoint × Int) :=
  ([60, 30, 0, -30, -60] : List Int).flatMap fun la =>
    ([-180, -150, -120, -90, -60, -30, 0, 30, 60, 90, 120, 150] : List Int).map
      fun lo => (⟨lo, la⟩, 0)

/-- A concrete STL function: zero trend, zero seasonal, residual = input. -/
def stl0 : StlFun := fun s => ⟨s.map fun _ => 0, s.map fun _ => 0, s⟩

/-- Twelve time slices of a single grid cell at (50, 20) holding count 2. -/
def tgField0 : TField := List.replicate 12 [(⟨50, 20⟩, 2)]

/-- A concrete environment: one index table for the year 2000 (with
consecutive repeated values), one cluster series over the year 2000, one
target file for the year 2000, and an all-ones mask. -/
def env0 : Env where
  indexData := fun f =>
    if f = "ix/oni.txt" then [(2000, [1, 1, 2, 3, 1, 1, 2, 3, 1, 1, 2, 3])] else []
  clusterData := fun _ => (buildCalendar 2000 2000).map fun ym => (ym, 1)
  targetFiles := fun f => if f = "tg_2000.nc" then some tgField0 else none
  maskData := fun _ _ => true

/-! ## Helper lemmas -/

lemma mem_insertByLon {α : Type} (p a : GridPoint × α) (l : List (GridPoint × α)) :
    a ∈ insertByLon p l ↔ a = p ∨ a ∈ l := by
  induction l with
  | nil => simp [insertByLon]
  | cons q qs ih =>
    by_cases h : p.1.lon ≤ q.1.lon
    · simp [insertByLon, h]
    · simp only [insertByLon, if_neg h, List.mem_cons, ih]
      tauto

lemma mem_sortByLon {α : Type} (a : GridPoint × α) (l : List (GridPoint × α)) :
    a ∈ sortByLon l ↔ a ∈ l := by
  induction l with
  | nil => simp [sortByLon]
  | cons p ps ih => simp [sortByLon, mem_insertByLon, ih]

lemma crop_field_crossing {α : Type} (var : List (GridPoint × α))
    (lon1 lon2 lat1 lat2 : Int) (h : crossesAntimeridian lon1 lon2 = true) :
    crop_field var lon1 lon2 lat1 lat2 =
      (sortByLon (var.map fun p => (⟨convLon p.1.lon, p.1.lat⟩, p.2))).filter
        fun p => inBox (if lon1 < 0 then lon1 + 360 else lon1)
          (if lon2 < 0 then lon2 + 360 else lon2) lat1 lat2 p.1 := by
  simp only [crop_field, h, if_true]

lemma mem_crop_field_crossing {α : Type} (var : List (GridPoint × α))
    (lon1 lon2 lat1 lat2 : Int) (h : crossesAntimeridian lon1 lon2 = true)
    (q : GridPoint × α) :
    q ∈ crop_field var lon1 lon2 lat1 lat2 ↔
      (∃ p ∈ var, (GridPoint.mk (convLon p.1.lon) p.1.lat, p.2) = q) ∧
      inBox (if lon1 < 0 then lon1 + 360 else lon1)
        (if lon2 < 0 then lon2 + 360 else lon2) lat1 lat2 q.1 = true := by
  rw [crop_field_crossing var lon1 lon2 lat1 lat2 h]
  simp [List.mem_filter, mem_sortByLon, List.mem_map]

/-! ## Claim C1 -/

/-- C1 counterexample: cropping to the NWP box (100, 180, 0, 40) does
trigger the antimeridian conversion (the condition `lon2 == 180` of line 28
holds), and on a full-globe grid containing longitude -180 the crop does not
return exactly the points with longitude in [100, 180]: the point at -180 is
re-based to 180 and retained, so the crop holds six points where the literal
box holds four. -/
theorem crop_nwp_claim_false :
    crossesAntimeridian 100 180 = true ∧
    (crop_field fullGlobeGrid 100 180 0 40).length ≠
      (fullGlobeGrid.filter fun p => inBox 100 180 0 40 p.1).length := by
  decide

/-- C1 amended: cropping to the NWP bounding box (100, 180, 0, 40) triggers
the antimeridian conversion (because the eastern bound equals 180), yet for
every field whose longitudes lie in (-180, 180] the crop still yields exactly
the grid points with longitude in [100, 180] and latitude in [0, 40], because
the conversion fixes that longitude range pointwise. -/
theorem crop_nwp_amended (pts : List (GridPoint × Int))
    (hlon : ∀ p ∈ pts, -180 < p.1.lon ∧ p.1.lon ≤ 180) :
    crossesAntimeridian 100 180 = true ∧
    ∀ q : GridPoint × Int,
      q ∈ crop_field pts 100 180 0 40 ↔
        q ∈ pts ∧ 100 ≤ q.1.lon ∧ q.1.lon ≤ 180 ∧ 0 ≤ q.1.lat ∧ q.1.lat ≤ 40 := by
  refine ⟨by decide, fun q => ?_⟩
  rw [mem_crop_field_crossing _ _ _ _ _ (by decide)]
  constructor
  · rintro ⟨⟨p, hp, rfl⟩, hbox⟩
    norm_num [inBox] at hbox
    obtain ⟨h1, h2⟩ := hlon p hp
    have hcl : convLon p.1.lon = p.1.lon := by
      unfold convLon at hbox ⊢
      omega
    rw [hcl] at hbox
    dsimp only
    rw [hcl]
    exact ⟨hp, by omega⟩
  · rintro ⟨hq, h1, h2, h3, h4⟩
    have hcl : convLon q.1.lon = q.1.lon := by
      unfold convLon
      omega
    refine ⟨⟨q, hq, ?_⟩, ?_⟩
    · rw [hcl]
    · norm_num [inBox]
      omega

/-- C1 witness: a concrete application of the amended crop statement. -/
theorem crop_nwp_amended_witness :
    (GridPoint.mk 120 20, (5 : Int)) ∈
      crop_field [(GridPoint.mk 120 20, (5 : Int)), (GridPoint.mk (-75) 20, 3)]
        100 180 0 40 :=
  ((crop_nwp_amended
      [(GridPoint.mk 120 20, (5 : Int)), (GridPoint.mk (-75) 20, 3)]
      (by decide)).2 (GridPoint.mk 120 20, (5 : Int))).mpr (by decide)

/-! ## Claim C2 -/

/-- C2: cropping with the SP box (135, -70, -40, 0) triggers the
antimeridian handling, retains every point at longitude -75 with latitude in
[-40, 0] (re-based to longitude 285, which lies in the converted interval
[135, 290]), and excludes any point at longitude 50 (no retained point has
longitude 50, and 50 is its own image under the conversion). -/
theorem crop_sp_crossing (pts : List (GridPoint × Int)) :
    crossesAntimeridian 135 (-70) = true ∧
    (∀ p : GridPoint × Int, p ∈ pts → p.1.lon = -75 →
      -40 ≤ p.1.lat → p.1.lat ≤ 0 →
      (GridPoint.mk 285 p.1.lat, p.2) ∈ crop_field pts 135 (-70) (-40) 0) ∧
    (∀ q ∈ crop_field pts 135 (-70) (-40) 0, q.1.lon ≠ 50) := by
  refine ⟨by decide, fun p hp hlon hl1 hl2 => ?_, fun q hq => ?_⟩
  · rw [mem_crop_field_crossing _ _ _ _ _ (by decide)]
    refine ⟨⟨p, hp, ?_⟩, ?_⟩
    · rw [hlon]
      norm_num [convLon]
    · norm_num [inBox]
      omega
  · rw [mem_crop_field_crossing _ _ _ _ _ (by decide)] at hq
    have hbox := hq.2
    norm_num [inBox] at hbox
    omega

/-- C2 witness: a concrete application of the SP crossing statement. -/
theorem crop_sp_crossing_witness :
    (GridPoint.mk 285 (-20), (7 : Int)) ∈
      crop_field [(GridPoint.mk (-75) (-20), (7 : Int)), (GridPoint.mk 50 (-20), 9)]
        135 (-70) (-40) 0 :=
  (crop_sp_crossing
      [(GridPoint.mk (-75) (-20), (7 : Int)), (GridPoint.mk 50 (-20), 9)]).2.1
    (GridPoint.mk (-75) (-20), (7 : Int)) (by decide) rfl (by decide) (by decide)

/-! ## Claim C3 -/

lemma loadIndexes_nil_cal (env : Env) (ip : String) (iv : List String) :
    ∃ cols tr, loadIndexes env ip iv [] = (.ok cols, tr) := by
  induction iv with
  | nil => exact ⟨[], [], rfl⟩
  | cons ci rest ih =>
    obtain ⟨cols, tr, hrest⟩ := ih
    refine ⟨(ci, [].zip []) :: cols, indexFileName ip ci :: tr, ?_⟩
    simp [loadIndexes, fillIndexColumn, hrest]

lemma buildTarget_empty_years (env : Env) (tp basin : String)
    (box : Int × Int × Int × Int) (fy ly : Int) (cal : List (Int × Int))
    (h : ly < fy) :
    buildTarget env tp basin box fy ly cal = (.error .emptyConcat, []) := by
  have hy : (ly + 1 - fy).toNat = 0 := by omega
  simp [buildTarget, hy, readYearFiles]

/-- C3 counterexample: with last_year < first_year the calendar step of
build_dataset raises nothing and silently yields an empty time axis; the
build carries on, reads the index and cluster files, and only fails later
when asked to concatenate zero per-year target files (and that failure is
the empty-concatenation error, not an invalid-range one). -/
theorem calendar_inverted_range_counterexample :
    buildCalendar 2005 2004 = [] ∧
    build_dataset env0 stl0 "NWP" ["v"] ["oni"] "cl" "ix" "tg" 2005 2004
        false false true =
      (.error .emptyConcat, ["ix/oni.txt", "cl/averages_v.csv"]) := by
  constructor
  · decide
  · rfl

/-- C3 amended: for last_year < first_year the calendar built by
build_dataset is empty (no InvalidRangeError is raised by the calendar
step), and for every recognised basin the whole build then fails with the
empty-concatenation error of the target step, not with a range error. -/
theorem calendar_inverted_range (fy ly : Int) (h : ly < fy) :
    buildCalendar fy ly = [] ∧
    ∀ (env : Env) (stl : StlFun) (basin : String) (cv iv : List String)
      (cp ip tp : String) (des det mc : Bool) (box : Int × Int × Int × Int),
      basinBounds basin = some box →
      (build_dataset env stl basin cv iv cp ip tp fy ly des det mc).1 =
        .error .emptyConcat := by
  have hn : (12 * (ly - fy + 1)).toNat = 0 := by omega
  have hcal : buildCalendar fy ly = [] := by
    simp [buildCalendar, hn]
  refine ⟨hcal, fun env stl basin cv iv cp ip tp des det mc box hb => ?_⟩
  obtain ⟨cols, tr, hli⟩ := loadIndexes_nil_cal env ip iv
  unfold build_dataset
  rw [hb]
  dsimp only
  rw [hcal, hli]
  dsimp only
  rw [buildTarget_empty_years env tp basin box fy ly [] h]

/-- C3 witness: the amended statement applied at the concrete inverted
range (2005, 2004) and the NWP basin. -/
theorem calendar_inverted_range_witness :
    buildCalendar 2005 2004 = [] ∧
    (build_dataset env0 stl0 "NWP" ["v", "w"] ["oni", "nao"] "cl" "ix" "tg"
        2005 2004 true true true).1 = .error .emptyConcat :=
  ⟨(calendar_inverted_range 2005 2004 (by norm_num)).1,
   (calendar_inverted_range 2005 2004 (by norm_num)).2 env0 stl0 "NWP"
     ["v", "w"] ["oni", "nao"] "cl" "ix" "tg" true true true _ rfl⟩

/-! ## Claim C4 -/

/-- C4: for first_year <= last_year the calendar has length
12 * (last_year - first_year + 1), begins at January of first_year, ends at
December of last_year, is strictly increasing in chronological order, and
contains (y, m) exactly when first_year <= y <= last_year and
1 <= m <= 12 (one entry per calendar month, no gaps). -/
theorem buildCalendar_spec (fy ly : Int) (h : fy ≤ ly) :
    ((buildCalendar fy ly).length : Int) = 12 * (ly - fy + 1) ∧
    (buildCalendar fy ly).head? = some (fy, 1) ∧
    (buildCalendar fy ly).getLast? = some (ly, 12) ∧
    List.Pairwise ymLt (buildCalendar fy ly) ∧
    ∀ y m : Int, (y, m) ∈ buildCalendar fy ly ↔
      fy ≤ y ∧ y ≤ ly ∧ 1 ≤ m ∧ m ≤ 12 := by
  refine ⟨?_, ?_, ?_, ?_, ?_⟩
  · simp only [buildCalendar, List.length_map, List.length_range]
    omega
  · rw [buildCalendar, List.head?_map, List.head?_eq_getElem?,
      List.getElem?_range (by omega : 0 < (12 * (ly - fy + 1)).toNat)]
    simp
  · rw [buildCalendar, List.getLast?_eq_getElem?, List.length_map,
      List.length_range, List.getElem?_map,
      List.getElem?_range (by omega : (12 * (ly - fy + 1)).toNat - 1 <
        (12 * (ly - fy + 1)).toNat)]
    simp only [Option.map_some', Option.some.injEq, Prod.mk.injEq]
    omega
  · exact (List.pairwise_lt_range _).map _ fun a b hab => by
      simp only [ymLt]
      omega
  · intro y m
    simp only [buildCalendar, List.mem_map, List.mem_range, Prod.mk.injEq]
    constructor
    · rintro ⟨k, hk, h1, h2⟩
      omega
    · intro hr
      exact ⟨(12 * (y - fy) + (m - 1)).toNat, by omega, by omega, by omega⟩

/-- C4 witness: the calendar invariants at the concrete range 2000-2001. -/
theorem buildCalendar_spec_witness :
    ((buildCalendar 2000 2001).length : Int) = 24 ∧
    (buildCalendar 2000 2001).head? = some (2000, 1) ∧
    (buildCalendar 2000 2001).getLast? = some (2001, 12) ∧
    List.Pairwise ymLt (buildCalendar 2000 2001) :=
  ⟨(buildCalendar_spec 2000 2001 (by norm_num)).1,
   (buildCalendar_spec 2000 2001 (by norm_num)).2.1,
   (buildCalendar_spec 2000 2001 (by norm_num)).2.2.1,
   (buildCalendar_spec 2000 2001 (by norm_num)).2.2.2.1⟩

/-! ## Claim C5 -/

/-- C5: for a basin identifier outside the recognised set, both
build_dataset and build_dataset_noTS fail with the unknown-basin error
immediately: the I/O trace is empty (no file was read) and no output of any
kind is produced. -/
theorem unknown_basin_rejected_first (env : Env) (stl : StlFun)
    (basin : String) (cv iv : List String) (cp ip tp : String)
    (fy ly : Int) (des det mc : Bool) (h : basinBounds basin = none) :
    build_dataset env stl basin cv iv cp ip tp fy ly des det mc =
      (.error .unknownBasin, []) ∧
    build_dataset_noTS env stl basin cv iv cp ip tp fy ly mc =
      (.error .unknownBasin, []) := by
  constructor
  · unfold build_dataset
    rw [h]
  · unfold build_dataset_noTS
    rw [h]

/-- C5 witness: the unknown basin id "XX" with a concrete environment. -/
theorem unknown_basin_rejected_first_witness :
    build_dataset env0 stl0 "XX" ["v"] ["oni"] "cl" "ix" "tg" 2000 2000
      false false true = (.error .unknownBasin, []) ∧
    build_dataset_noTS env0 stl0 "XX" ["v"] ["oni"] "cl" "ix" "tg" 2000 2000
      true = (.error .unknownBasin, []) :=
  unknown_basin_rejected_first env0 stl0 "XX" ["v"] ["oni"] "cl" "ix" "tg"
    2000 2000 false false true (by decide)

/-! ## Claim C6 -/

lemma fillIndexColumn_error_eq (tbl : List (Int × List ℚ))
    (cal : List (Int × Int)) (e : Err)
    (h : fillIndexColumn tbl cal = .error e) : e = .missingDataPoint := by
  induction cal with
  | nil => simp [fillIndexColumn] at h
  | cons ym rest ih =>
    unfold fillIndexColumn at h
    cases hlk : lookupIndexCell tbl ym.1 ym.2 with
    | none =>
      rw [hlk] at h
      simp only [Except.error.injEq] at h
      exact h.symm
    | some v =>
      rw [hlk] at h
      cases hfc : fillIndexColumn tbl rest with
      | error e2 =>
        rw [hfc] at h
        simp only [Except.map, Except.error.injEq] at h
        subst h
        exact ih hfc
      | ok vs =>
        rw [hfc] at h
        simp [Except.map] at h

lemma fillIndexColumn_missing (tbl : List (Int × List ℚ))
    (cal : List (Int × Int)) (ym : Int × Int) (hym : ym ∈ cal)
    (hlk : lookupIndexCell tbl ym.1 ym.2 = none) :
    fillIndexColumn tbl cal = .error .missingDataPoint := by
  induction cal with
  | nil => simp at hym
  | cons a rest ih =>
    rcases List.mem_cons.mp hym with rfl | hmem
    · unfold fillIndexColumn
      rw [hlk]
    · unfold fillIndexColumn
      cases hlt : lookupIndexCell tbl a.1 a.2 with
      | none => rfl
      | some v => rw [ih hmem]; rfl

lemma loadIndexes_missing (env : Env) (ip : String) (iv : List String)
    (cal : List (Int × Int)) (ci : String) (ym : Int × Int)
    (hci : ci ∈ iv) (hym : ym ∈ cal)
    (hlk : lookupIndexCell (env.indexData (indexFileName ip ci)) ym.1 ym.2 = none) :
    (loadIndexes env ip iv cal).1 = .error .missingDataPoint := by
  induction iv with
  | nil => simp at hci
  | cons a rest ih =>
    rcases List.mem_cons.mp hci with rfl | hmem
    · unfold loadIndexes
      dsimp only
      rw [fillIndexColumn_missing _ _ _ hym hlk]
    · unfold loadIndexes
      dsimp only
      cases hfc : fillIndexColumn (env.indexData (indexFileName ip a)) cal with
      | error e => rw [fillIndexColumn_error_eq _ _ _ hfc]
      | ok vals =>
        rcases hrest : loadIndexes env ip rest cal with ⟨r, tr⟩
        have hr : r = .error .missingDataPoint := by
          have h2 := ih hmem
          rw [hrest] at h2
          exact h2
        rw [hr]

/-- C6: whenever some requested climate index lacks the (year, month) cell
of some calendar timestamp, the index-loading step fails with the
missing-data-point error (no default, zero, or interpolated value is ever
produced - the step has no other outcome in that situation), and the whole
build fails the same way for any recognised basin. -/
theorem missing_index_cell_fails (env : Env) (ip : String)
    (iv : List String) (ci : String) (fy ly : Int) (ym : Int × Int)
    (hci : ci ∈ iv) (hym : ym ∈ buildCalendar fy ly)
    (hlk : lookupIndexCell (env.indexData (indexFileName ip ci)) ym.1 ym.2 = none) :
    (loadIndexes env ip iv (buildCalendar fy ly)).1 = .error .missingDataPoint ∧
    ∀ (stl : StlFun) (basin : String) (box : Int × Int × Int × Int)
      (cv : List String) (cp tp : String) (des det mc : Bool),
      basinBounds basin = some box →
      (build_dataset env stl basin cv iv cp ip tp fy ly des det mc).1 =
        .error .missingDataPoint := by
  have hli := loadIndexes_missing env ip iv (buildCalendar fy ly) ci ym hci hym hlk
  refine ⟨hli, fun stl basin box cv cp tp des det mc hb => ?_⟩
  unfold build_dataset
  rw [hb]
  dsimp only
  rcases hpair : loadIndexes env ip iv (buildCalendar fy ly) with ⟨r, tr⟩
  rw [hpair] at hli
  dsimp only at hli
  rw [hli]

/-- C6 witness: the year 1999 is absent from the concrete index table (which
only holds the year 2000), so requesting 1999 month 3 fails. -/
theorem missing_index_cell_fails_witness :
    (loadIndexes env0 "ix" ["oni"] (buildCalendar 1999 1999)).1 =
      .error .missingDataPoint ∧
    (build_dataset env0 stl0 "NWP" ["v"] ["oni"] "cl" "ix" "tg" 1999 1999
      false false true).1 = .error .missingDataPoint :=
  ⟨(missing_index_cell_fails env0 "ix" ["oni"] "oni" 1999 1999 (1999, 3)
      (by decide) (by decide) (by decide)).1,
   (missing_index_cell_fails env0 "ix" ["oni"] "oni" 1999 1999 (1999, 3)
      (by decide) (by decide) (by decide)).2 stl0 "NWP" (100, 180, 0, 40)
     ["v"] "cl" "tg" false false true (by decide)⟩

/-! ## Claim C7 -/

/-- C7: the consecutive-repeat check on the column [1, 1, 2, 3] flags
exactly index position 1 (where the value equals its predecessor) and no
other position; on a column full of repeats it does flag positions, yet a
build over data containing such a column still succeeds - the check is
advisory and never halts the pipeline. -/
theorem consecutive_repeats_advisory :
    check_consecutive_repeats [1, 1, 2, 3] = [1] ∧
    check_consecutive_repeats [1, 1, 2, 3, 1, 1, 2, 3, 1, 1, 2, 3] ≠ [] ∧
    isOkResult (build_dataset env0 stl0 "NI" ["v"] ["oni"] "cl" "ix" "tg"
      2000 2000 false false true).1 = true := by
  refine ⟨by decide, by decide, ?_⟩
  decide

/-! ## Claim C8 -/

lemma buildTarget_ok_length (env : Env) (tp basin : String)
    (box : Int × Int × Int × Int) (fy ly : Int) (cal : List (Int × Int))
    (tgt : List Int)
    (h : (buildTarget env tp basin box fy ly cal).1 = .ok tgt) :
    tgt.length = cal.length := by
  simp only [buildTarget] at h
  split at h
  · simp at h
  · split at h
    · simp at h
    · split at h
      · next hlen =>
        simp only [Except.ok.injEq] at h
        rw [← h]
        exact hlen
      · simp at h

/-- C8: whenever build_dataset is called with deseasonalize true and detrend
false and returns successfully, the result is the 4-tuple whose fourth
element is the seasonal component of the target's decomposition and whose
third element is the original target minus that seasonal component,
elementwise; and (given the STL length contract) target, adjusted target and
seasonal component are all aligned to the calendar, with one entry per
calendar timestamp. -/
theorem deseasonalize_mode (env : Env) (stl : StlFun) (basin : String)
    (cv iv : List String) (cp ip tp : String) (fy ly : Int) (mc : Bool)
    (ds : FeatureTable) (tgt : List Int) (adj comp : List ℚ)
    (hstl : ∀ s, ((stl s).seasonal).length = s.length)
    (h : (build_dataset env stl basin cv iv cp ip tp fy ly true false mc).1 =
      .ok (.extended ds tgt adj comp)) :
    comp = (stl (intToRatSeries tgt)).seasonal ∧
    adj = List.zipWith (fun t s => t - s) (intToRatSeries tgt) comp ∧
    tgt.length = (buildCalendar fy ly).length ∧
    comp.length = (buildCalendar fy ly).length ∧
    adj.length = (buildCalendar fy ly).length := by
  unfold build_dataset at h
  split at h
  · simp at h
  · dsimp only at h
    split at h
    · simp at h
    · split at h
      · simp at h
      · next target tr3 hbt =>
        simp only [finalize, if_true, Except.ok.injEq, Output.extended.injEq] at h
        obtain ⟨hds, htgt, hadj, hcomp⟩ := h
        subst htgt
        have hlen : target.length = (buildCalendar fy ly).length :=
          buildTarget_ok_length env tp basin _ fy ly _ target
            (by rw [hbt])
        refine ⟨hcomp.symm, ?_, hlen, ?_, ?_⟩
        · rw [← hadj, hcomp]
        · rw [← hcomp, hstl, intToRatSeries, List.length_map]
          exact hlen
        · rw [← hadj, List.length_zipWith, hstl, intToRatSeries,
            List.length_map, min_self]
          exact hlen

/-- C8 witness: a concrete deseasonalized build over the year 2000. -/
theorem deseasonalize_mode_witness :
    let tgt : List Int := [2, 2, 2, 2, 2, 2, 2, 2, 2, 2, 2, 2]
    let comp : List ℚ := [0, 0, 0, 0, 0, 0, 0, 0, 0, 0, 0, 0]
    let adj : List ℚ := [2, 2, 2, 2, 2, 2, 2, 2, 2, 2, 2, 2]
    comp = (stl0 (intToRatSeries tgt)).seasonal ∧
    adj = List.zipWith (fun t s => t - s) (intToRatSeries tgt) comp ∧
    tgt.length = (buildCalendar 2000 2000).length ∧
    comp.length = (buildCalendar 2000 2000).length ∧
    adj.length = (buildCalendar 2000 2000).length :=
  deseasonalize_mode env0 stl0 "NI" [] [] "cl" "ix" "tg" 2000 2000 false
    ⟨[]⟩
    [2, 2, 2, 2, 2, 2, 2, 2, 2, 2, 2, 2]
    [2, 2, 2, 2, 2, 2, 2, 2, 2, 2, 2, 2]
    [0, 0, 0, 0, 0, 0, 0, 0, 0, 0, 0, 0]
    (fun s => by simp [stl0])
    (by with_unfolding_all rfl)

/-! ## Claim C9 -/

/-- C9: in the target-building step, basins NEP and NA have the ocean mask
applied strictly after cropping (the selection composes the mask filter with
the crop, in that order); basins NWP, NI, SP and SI are cropped only, with
no reference to any mask; basin GLB is neither cropped nor masked, the field
passing through unchanged. -/
theorem basin_crop_mask_dispatch (env : Env) (box : Int × Int × Int × Int)
    (f : TField) :
    selectTargetField env "NEP" box f =
      applyMask (crop_dataset f box) (env.maskData (maskFileName "NEP")) ∧
    selectTargetField env "NA" box f =
      applyMask (crop_dataset f box) (env.maskData (maskFileName "NA")) ∧
    selectTargetField env "NWP" box f = crop_dataset f box ∧
    selectTargetField env "NI" box f = crop_dataset f box ∧
    selectTargetField env "SP" box f = crop_dataset f box ∧
    selectTargetField env "SI" box f = crop_dataset f box ∧
    selectTargetField env "GLB" box f = f :=
  ⟨rfl, rfl, rfl, rfl, rfl, rfl, rfl⟩

/-! ## Claim C10 -/

/-- C10: when both deseasonalize and detrend are true, build_dataset behaves
exactly as with deseasonalize alone - the deseasonalize branch takes
precedence, the detrend flag is silently ignored, no error is raised for the
flag combination, and the flag dispatch yields the deseasonalized 4-tuple
(dataset, target, target minus seasonal, seasonal). -/
theorem both_flags_deseasonalize (env : Env) (stl : StlFun) (basin : String)
    (cv iv : List String) (cp ip tp : String) (fy ly : Int) (mc : Bool) :
    build_dataset env stl basin cv iv cp ip tp fy ly true true mc =
      build_dataset env stl basin cv iv cp ip tp fy ly true false mc ∧
    ∀ (ds : FeatureTable) (tgt : List Int),
      finalize stl ds tgt true true =
        .extended ds tgt
          (List.zipWith (fun t s => t - s) (intToRatSeries tgt)
            (stl (intToRatSeries tgt)).seasonal)
          (stl (intToRatSeries tgt)).seasonal := by
  constructor
  · unfold build_dataset
    cases hb : basinBounds basin with
    | none => rfl
    | some box =>
      dsimp only
      rcases hli : loadIndexes env ip iv (buildCalendar fy ly) with ⟨r1, t1⟩
      cases r1 with
      | error e => rfl
      | ok cols =>
        dsimp only
        rcases hbt : buildTarget env tp basin box fy ly (buildCalendar fy ly)
          with ⟨r3, t3⟩
        cases r3 <;> rfl
  · intro ds tgt
    rfl
